import Mathlib

/-!
# Verification of the ventyd event-sourcing core

Shallow embedding of the ventyd repository (TypeScript) in Lean 4:

* the Standard-Schema provider (`src/standard.ts`),
* the TypeBox → Standard-Schema bridge (`src/typeboxToStandardSchema.ts`),
* the prisma storage adapter (event/row conversion, `getEventsByEntityId`,
  `commitEvents`),
* the Article entity schema, reducer and business methods (the Article
  entity file exported through `src/index.ts`),
* a model of the Entity core (create / dispatch / flush / loadFromEvents),
  the `mutation` wrapper and the repository (commit / findOne), whose
  TypeScript implementation files are not among the available sources (only
  their interfaces and callers are); these parts are modelled from the spec
  and marked `Modelled from the spec:` in their doc comments.

Events are JS records `{eventId, eventCreatedAt, entityName, entityId,
eventName, body}`; the reducer switches on `eventName` and reads the fields
of `body` that the schema guarantees for that name.  We embed the body as a
tagged union (one constructor per declared event payload) and the reducer as
a joint match on the event-name string and the body tag, with a wildcard arm
returning the previous state — the switch in the source, whose `default` arm
returns `prevState`.  Schema validation guarantees that the name and the
body tag agree, so the joint match coincides with the source's switch on
every event that can reach the reducer.

JS `Date` parsing/printing is not part of this repository; `new Date(s)` is
embedded as a normalisation function `norm : String → String` (the
composite `s ↦ new Date(s).toISOString()`), a parameter of the adapter
model, and a `Date` value is represented by the canonical ISO string it
prints as.
-/

namespace Ventyd

/-! ## Standard-Schema provider (`src/standard.ts`) -/

/-- A Standard-Schema validation issue `{path, message}`.  The source maps
an object segment to its `key`, so a path segment is embedded as the key
string. -/
structure StdIssue where
  path : List String
  message : String
  deriving Repr, DecidableEq

/-- The synchronous result of a Standard-Schema `validate` call: a `{value}`
record, or an `{issues}` record carrying the list of violations. -/
inductive StdResult (α : Type) where
  | success (value : α)
  | failure (issues : List StdIssue)
  deriving Repr, DecidableEq

/-- What a `~standard.validate` call may return: a synchronous result or a
`Promise` (whose content the synchronous core never inspects). -/
inductive ValidateOutcome (α : Type) where
  | result (r : StdResult α)
  | promise
  deriving Repr, DecidableEq

/-- A Standard-Schema instance, embedded as its `~standard.validate`
function from raw input `ρ` to an outcome over `α`. -/
abbrev StdSchema (ρ α : Type) := ρ → ValidateOutcome α

/-- The per-issue path rendering of `formatStandardSchemaIssues`: dotted
segments when the path is non-empty, `(root)` otherwise. -/
def issuePathString (path : List String) : String :=
  if path.length > 0 then String.intercalate "." path else "(root)"

/-- `formatStandardSchemaIssues`: a header (with the event name when one was
given) followed by one `  - path: message` line per issue. -/
def formatStandardSchemaIssues (issues : List StdIssue) (eventName : Option String) :
    String :=
  let header :=
    match eventName with
    | some n => "Validation failed: \"" ++ n ++ "\""
    | none => "Validation failed"
  let errors := String.intercalate "\n"
    (issues.map (fun issue => "  - " ++ issuePathString issue.path ++ ": " ++ issue.message))
  if errors ≠ "" then header ++ "\n" ++ errors else header

/-- `standardValidate`: runs the schema's `validate`; a `Promise` result is
rejected outright, an `{issues}` result becomes a formatted error, and a
`{value}` result is returned. -/
def standardValidate (schema : StdSchema ρ α) (input : ρ) (eventName : Option String) :
    Except String α :=
  match schema input with
  | .promise => .error "Promise validation result is not supported"
  | .result (.failure issues) => .error (formatStandardSchemaIssues issues eventName)
  | .result (.success v) => .ok v

/-- The loop of `parseEvent`: try each event schema in map order; every
failure (validation or Promise rejection) is caught and ignored; when no
schema succeeds, fail with the generic `Validation failed`. -/
def parseEventAux (input : ρ) : List (StdSchema ρ α) → Except String α
  | [] => .error "Validation failed"
  | schema :: rest =>
    match standardValidate schema input none with
    | .ok v => .ok v
    | .error _ => parseEventAux input rest

/-- `parseEvent` of the standard provider, over the event map embedded as an
insertion-ordered association list. -/
def parseEvent (eventSchemas : List (String × StdSchema ρ α)) (input : ρ) :
    Except String α :=
  parseEventAux input (eventSchemas.map Prod.snd)

/-- `parseEventByName` of the standard provider: an unregistered name fails
with the message listing the available event names (the map's keys, joined
with `, `); a registered name validates through `standardValidate` with the
name passed along for the error header. -/
def parseEventByName (eventSchemas : List (String × StdSchema ρ α))
    (eventName : String) (input : ρ) : Except String α :=
  match eventSchemas.lookup eventName with
  | none =>
    .error ("Event name \"" ++ eventName ++ "\" not found. Available events: "
      ++ String.intercalate ", " (eventSchemas.map Prod.fst))
  | some schema => standardValidate schema input (some eventName)

/-- `parseState` of the standard provider. -/
def parseState (stateSchema : StdSchema ρ α) (input : ρ) : Except String α :=
  standardValidate stateSchema input none

/-! ## TypeBox → Standard-Schema bridge (`src/typeboxToStandardSchema.ts`) -/

/-- JS `segment.replace(/~1/g, "/")`: every occurrence of `~1`, scanned left
to right without overlap, becomes `/`. -/
def unescapeTilde1 : List Char → List Char
  | '~' :: '1' :: rest => '/' :: unescapeTilde1 rest
  | c :: rest => c :: unescapeTilde1 rest
  | [] => []

/-- JS `segment.replace(/~0/g, "~")`: every occurrence of `~0` becomes
`~`. -/
def unescapeTilde0 : List Char → List Char
  | '~' :: '0' :: rest => '~' :: unescapeTilde0 rest
  | c :: rest => c :: unescapeTilde0 rest
  | [] => []

/-- JS `String.prototype.split` with a one-character separator: splitting
the empty string gives `[""]`, and each separator occurrence opens a new
segment. -/
def splitOnChar (sep : Char) : List Char → List (List Char)
  | [] => [[]]
  | c :: rest =>
    let groups := splitOnChar sep rest
    if c = sep then [] :: groups
    else
      match groups with
      | [] => [[c]]
      | g :: gs => (c :: g) :: gs

/-- `PathSegments`: an empty JSON Pointer decodes to the empty path;
otherwise drop the leading `/`, split on `/`, and unescape `~1` to `/` then
`~0` to `~` in each segment. -/
def PathSegments (pointer : String) : List String :=
  if pointer.length = 0 then []
  else
    (splitOnChar '/' (pointer.data.drop 1)).map
      (fun segment => String.mk (unescapeTilde0 (unescapeTilde1 segment)))

/-- A TypeBox localized validation error, as consumed by `Issue`: the
`instancePath` JSON Pointer to the offending value and a `message`. -/
structure TLocalizedValidationError where
  instancePath : String
  message : String
  deriving Repr, DecidableEq

/-- `Issue`: one Standard-Schema issue per TypeBox error, its path decoded
from the error's `instancePath`. -/
def Issue (error : TLocalizedValidationError) : StdIssue :=
  { path := PathSegments error.instancePath, message := error.message }

/-- A compiled TypeBox validator: `Check` decides validity and `Errors`
enumerates the violations of an invalid value. -/
structure Validator (ρ : Type) where
  Check : ρ → Bool
  Errors : ρ → List TLocalizedValidationError

/-- `StandardSchemaProps.validate` of the TypeBox bridge: a value passing
`Check` is returned as `{value}`; otherwise the validator's errors are
mapped through `Issue` into the `{issues}` list.  Always synchronous. -/
def typeboxValidate (validator : Validator ρ) (value : ρ) : ValidateOutcome ρ :=
  if validator.Check value then .result (.success value)
  else .result (.failure ((validator.Errors value).map Issue))

/-! ## Prisma adapter (event/row conversion and storage) -/

/-- A JS `Date` as stored in an event row, represented by the canonical
ISO-8601 string it prints as; `new Date(s)` normalises `s` to that canonical
form. -/
structure JSDate where
  iso : String
  deriving Repr, DecidableEq

/-- `new Date(s)` under the date-normalisation parameter `norm` (the JS
composite `s ↦ new Date(s).toISOString()`). -/
def newDate (norm : String → String) (s : String) : JSDate := ⟨norm s⟩

/-- `Date.prototype.toISOString`. -/
def JSDate.toISOString (d : JSDate) : String := d.iso

/-- A ventyd event envelope (`BaseEventType`) with body type `β`. -/
structure PEvent (β : Type) where
  eventId : String
  eventName : String
  entityId : String
  entityName : String
  eventCreatedAt : String
  body : β
  deriving Repr, DecidableEq

/-- A prisma event row (`BaseEventTypeRow`): the envelope with
`eventCreatedAt` as a `Date`. -/
structure PRow (β : Type) where
  eventId : String
  eventName : String
  entityId : String
  entityName : String
  eventCreatedAt : JSDate
  body : β
  deriving Repr, DecidableEq

/-- `eventToRow` of the prisma adapter: copy the envelope fields and parse
`eventCreatedAt` with `new Date`. -/
def eventToRow (norm : String → String) (event : PEvent β) : PRow β :=
  { eventId := event.eventId
    eventName := event.eventName
    entityId := event.entityId
    entityName := event.entityName
    eventCreatedAt := newDate norm event.eventCreatedAt
    body := event.body }

/-- `rowToEvent` of the prisma adapter: copy the fields back and print
`eventCreatedAt` with `toISOString`. -/
def rowToEvent (row : PRow β) : PEvent β :=
  { eventId := row.eventId
    eventName := row.eventName
    entityId := row.entityId
    entityName := row.entityName
    eventCreatedAt := row.eventCreatedAt.toISOString
    body := row.body }

/-- The relational store behind the prisma adapter: the event table (rows in
insertion order, i.e. the creation order of the events) and the snapshot
table keyed by entity id. -/
structure PrismaDb (β σ : Type) where
  events : List (PRow β)
  snapshots : List (String × σ)
  deriving Repr, DecidableEq

/-- A prisma write command as issued by `commitEvents`: the event-table
`createMany` or the snapshot-table `upsert`. -/
inductive PrismaCmd (β σ : Type) where
  | createMany (rows : List (PRow β))
  | upsertSnapshot (id : String) (row : σ)
  deriving Repr, DecidableEq

/-- Snapshot `upsert`: update the row at `id` when present, insert it
otherwise. -/
def upsertList (id : String) (row : σ) : List (String × σ) → List (String × σ)
  | [] => [(id, row)]
  | (k, v) :: rest =>
    if k = id then (k, row) :: rest else (k, v) :: upsertList id row rest

/-- Apply one prisma command to the store. -/
def applyCmd (db : PrismaDb β σ) : PrismaCmd β σ → PrismaDb β σ
  | .createMany rows => { db with events := db.events ++ rows }
  | .upsertSnapshot id row => { db with snapshots := upsertList id row db.snapshots }

/-- `prisma.$transaction`: the commands are applied atomically — all of them
when the transaction succeeds (`ok = true`), none when it fails, leaving the
store unchanged. -/
def runTransaction (ok : Bool) (db : PrismaDb β σ) (cmds : List (PrismaCmd β σ)) :
    PrismaDb β σ :=
  if ok then cmds.foldl applyCmd db else db

/-- The command list that `commitEvents` hands to its single
`prisma.$transaction` call: the event `createMany` over the converted rows,
and the snapshot `upsert` at the entity id with the row built by
`entityToRow`. -/
def commitEventsTx (norm : String → String) (entityToRow : String → σty → σ)
    (events : List (PEvent β)) (entityId : String) (state : σty) :
    List (PrismaCmd β σ) :=
  let snapshotRow := entityToRow entityId state
  [PrismaCmd.createMany (events.map (eventToRow norm)),
   PrismaCmd.upsertSnapshot entityId snapshotRow]

/-- `commitEvents` of the prisma adapter: one `$transaction` over exactly
the two commands of `commitEventsTx`. -/
def commitEvents (ok : Bool) (norm : String → String) (entityToRow : String → σty → σ)
    (db : PrismaDb β σ) (events : List (PEvent β)) (entityId : String) (state : σty) :
    PrismaDb β σ :=
  runTransaction ok db (commitEventsTx norm entityToRow events entityId state)

/-- `tables.event.findMany` with the `where` clause of the adapter: the rows
whose `entityName` and `entityId` both match, in table (creation) order. -/
def findMany (db : PrismaDb β σ) (entityName entityId : String) : List (PRow β) :=
  db.events.filter
    (fun row => row.entityName == entityName && row.entityId == entityId)

/-- `getEventsByEntityId` of the prisma adapter: the matching rows mapped
back through `rowToEvent`. -/
def getEventsByEntityId (db : PrismaDb β σ) (entityName entityId : String) :
    List (PEvent β) :=
  (findMany db entityName entityId).map rowToEvent

/-! ## The Article entity (schema, reducer, business methods) -/

/-- The article state, from the `state` TypeBox object of the article
schema. -/
structure ArticleState where
  title : String
  content : String
  author : String
  tags : List String
  isPublished : Bool
  publishedAt : Option String
  isArchived : Bool
  archivedReason : Option String
  archivedAt : Option String
  deriving Repr, DecidableEq

/-- Event payloads of the article schema, one constructor per event declared
in the `event` map of the TypeBox schema. -/
inductive ArticleBody where
  | created (title content author : String) (tags : List String)
  | title_updated (title : String)
  | content_updated (content : String)
  | tags_updated (tags : List String)
  | published (publishedAt : String)
  | unpublished (reason : Option String)
  | archived (reason : String)
  | unarchived
  deriving Repr, DecidableEq

/-- An article event: the ventyd envelope with an article payload. -/
abbrev ArticleEvent := PEvent ArticleBody

/-- The event names handled by the cases of the article reducer's switch. -/
def articleHandledEventNames : List String :=
  ["article:created", "article:title_updated", "article:content_updated",
   "article:tags_updated", "article:published", "article:unpublished",
   "article:archived", "article:unarchived"]

/-- The article reducer, from `articleReducer` in the source: a switch on
`event.eventName` whose `default` case returns `prevState`.  The body tag is
matched jointly with the name (validated events always pair a name with its
own payload shape); any combination not produced by a case of the source's
switch falls through to the wildcard arm returning `prevState`. -/
def articleReducer (prevState : ArticleState) (event : ArticleEvent) : ArticleState :=
  match event.eventName, event.body with
  | "article:created", .created title content author tags =>
    { title := title
      content := content
      author := author
      tags := tags
      isPublished := false
      publishedAt := none
      isArchived := false
      archivedReason := none
      archivedAt := none }
  | "article:title_updated", .title_updated title =>
    { prevState with title := title }
  | "article:content_updated", .content_updated content =>
    { prevState with content := content }
  | "article:tags_updated", .tags_updated tags =>
    { prevState with tags := tags }
  | "article:published", .published publishedAt =>
    { prevState with isPublished := true, publishedAt := some publishedAt }
  | "article:unpublished", .unpublished _ =>
    { prevState with isPublished := false, publishedAt := none }
  | "article:archived", .archived reason =>
    { prevState with
        isArchived := true
        archivedReason := some reason
        archivedAt := some event.eventCreatedAt }
  | "article:unarchived", .unarchived =>
    { prevState with
        isArchived := false
        archivedReason := none
        archivedAt := none }
  | _, _ => prevState

/-- The per-event TypeBox validation of the article schema: `title` length
in 1..200 where the schema constrains it, `content` length at least 1, other
fields unconstrained; the envelope's `eventName` must be the namespaced
name paired with the payload's variant (each event schema fixes its
`eventName` literal). -/
def articleEventValid (event : ArticleEvent) : Bool :=
  match event.eventName, event.body with
  | "article:created", .created title content _ _ =>
    decide (1 ≤ title.length) && decide (title.length ≤ 200)
      && decide (1 ≤ content.length)
  | "article:title_updated", .title_updated title =>
    decide (1 ≤ title.length) && decide (title.length ≤ 200)
  | "article:content_updated", .content_updated content =>
    decide (1 ≤ content.length)
  | "article:tags_updated", .tags_updated _ => true
  | "article:published", .published _ => true
  | "article:unpublished", .unpublished _ => true
  | "article:archived", .archived _ => true
  | "article:unarchived", .unarchived => true
  | _, _ => false

/-! ## Entity core and repository (modelled from the spec) -/

/-- The ventyd error taxonomy (spec §7), as far as the claims need it:
`readonlyEntity` for `ReadonlyEntityError`, `uninitialized` for
`UninitializedError`, `validation` for schema-validation failures, and
`jsError` for a plain `new Error(message)` thrown by business guard
clauses. -/
inductive VentydError where
  | readonlyEntity
  | uninitialized
  | validation (message : String)
  | jsError (message : String)
  deriving Repr, DecidableEq

/-- Modelled from the spec: an Entity instance (spec §3/§4.2; `Entity.ts` is
not among the available sources).  It holds the immutable `entityId`, the
derived state (`none` before any event is applied — the implicit undefined
seed), the pending (uncommitted) event queue in dispatch order, and the
readonly flag.  Listeners are omitted: no claim mentions them. -/
structure EntityInstance where
  entityId : String
  stateO : Option ArticleState
  queuedEvents : List ArticleEvent
  readonlyFlag : Bool
  deriving Repr, DecidableEq

/-- Modelled from the spec: the implicit empty/undefined seed the reducer
fold starts from.  Every history begins with the initial `created` event,
whose reducer case ignores the previous state, so the seed's value is never
observable; the all-empty record stands in for JS `undefined`. -/
def articleSeed : ArticleState :=
  { title := ""
    content := ""
    author := ""
    tags := []
    isPublished := false
    publishedAt := none
    isArchived := false
    archivedReason := none
    archivedAt := none }

/-- The `state` accessor: `UninitializedError` before any event has been
applied, the derived state afterwards. -/
def EntityInstance.getState (ent : EntityInstance) : Except VentydError ArticleState :=
  match ent.stateO with
  | some st => .ok st
  | none => .error .uninitialized

/-- Modelled from the spec: `dispatch` (spec §4.2) — fail with
`ReadonlyEntityError` when the entity is not mutable; otherwise build the
candidate event from the entity's identity, validate it against the
schema's per-event validator (rejection leaves state and queue untouched),
then reduce it into state and append it to the pending queue. -/
def EntityInstance.dispatch (ent : EntityInstance) (eventName : String)
    (body : ArticleBody) (eventId eventCreatedAt : String) :
    Except VentydError EntityInstance :=
  if ent.readonlyFlag then .error .readonlyEntity
  else
    let event : ArticleEvent :=
      { eventId := eventId
        eventName := eventName
        entityId := ent.entityId
        entityName := "article"
        eventCreatedAt := eventCreatedAt
        body := body }
    if articleEventValid event then
      .ok { ent with
              stateO := some (articleReducer (ent.stateO.getD articleSeed) event)
              queuedEvents := ent.queuedEvents ++ [event] }
    else .error (.validation "Validation failed")

/-- Modelled from the spec: `create` (spec §3) — a fresh mutable entity with
the given id dispatches the initial `article:created` event built from the
initial body. -/
def articleCreate (entityId eventId eventCreatedAt : String)
    (title content author : String) (tags : List String) :
    Except VentydError EntityInstance :=
  let fresh : EntityInstance :=
    { entityId := entityId, stateO := none, queuedEvents := [], readonlyFlag := false }
  fresh.dispatch "article:created" (.created title content author tags)
    eventId eventCreatedAt

/-- Modelled from the spec: `loadFromEvents` (spec §3) — state rebuilt by
folding the reducer over the events from the implicit empty seed; all
events are considered already committed, and the instance stays mutable. -/
def loadFromEvents (entityId : String) (events : List ArticleEvent) : EntityInstance :=
  { entityId := entityId
    stateO := events.foldl (fun acc e => some (articleReducer (acc.getD articleSeed) e)) none
    queuedEvents := []
    readonlyFlag := false }

/-- Modelled from the spec: `flush` (spec §4.2) — return the pending events
and clear the queue. -/
def EntityInstance.flush (ent : EntityInstance) :
    List ArticleEvent × EntityInstance :=
  (ent.queuedEvents, { ent with queuedEvents := [] })

/-- Modelled from the spec: `mutation` (spec §4.3) — reject with
`ReadonlyEntityError` before invoking the wrapped business function when the
bound entity is not mutable; otherwise run it, any error propagating
unchanged. -/
def mutation (ent : EntityInstance)
    (fn : EntityInstance → Except VentydError EntityInstance) :
    Except VentydError EntityInstance :=
  if ent.readonlyFlag then .error .readonlyEntity else fn ent

/-- `Article.updateTitle`, from the source: guard clauses on `canEdit`
(`!state.isArchived`) and the title length, then dispatch
`article:title_updated`. -/
def articleUpdateTitle (ent : EntityInstance) (title : String)
    (eventId eventCreatedAt : String) : Except VentydError EntityInstance :=
  mutation ent (fun ent =>
    match ent.getState with
    | .error e => .error e
    | .ok st =>
      if st.isArchived then
        .error (.jsError "Cannot update title of archived article")
      else if title.length = 0 then
        .error (.jsError "Title cannot be empty")
      else if title.length > 200 then
        .error (.jsError "Title cannot exceed 200 characters")
      else
        ent.dispatch "article:title_updated" (.title_updated title)
          eventId eventCreatedAt)

/-- `Article.updateContent`, from the source. -/
def articleUpdateContent (ent : EntityInstance) (content : String)
    (eventId eventCreatedAt : String) : Except VentydError EntityInstance :=
  mutation ent (fun ent =>
    match ent.getState with
    | .error e => .error e
    | .ok st =>
      if st.isArchived then
        .error (.jsError "Cannot update content of archived article")
      else if content.length = 0 then
        .error (.jsError "Content cannot be empty")
      else
        ent.dispatch "article:content_updated" (.content_updated content)
          eventId eventCreatedAt)

/-- `Article.updateTags`, from the source. -/
def articleUpdateTags (ent : EntityInstance) (tags : List String)
    (eventId eventCreatedAt : String) : Except VentydError EntityInstance :=
  mutation ent (fun ent =>
    match ent.getState with
    | .error e => .error e
    | .ok st =>
      if st.isArchived then
        .error (.jsError "Cannot update tags of archived article")
      else
        ent.dispatch "article:tags_updated" (.tags_updated tags)
          eventId eventCreatedAt)

/-- `Article.publish`, from the source: `canPublish` is
`!isPublished && !isArchived`; the archived case throws its own message
before the already-published one.  `nowIso` stands for
`new Date().toISOString()`. -/
def articlePublish (ent : EntityInstance) (eventId eventCreatedAt nowIso : String) :
    Except VentydError EntityInstance :=
  mutation ent (fun ent =>
    match ent.getState with
    | .error e => .error e
    | .ok st =>
      if !(!st.isPublished && !st.isArchived) then
        if st.isArchived then
          .error (.jsError "Cannot publish archived article")
        else
          .error (.jsError "Article is already published")
      else
        ent.dispatch "article:published" (.published nowIso) eventId eventCreatedAt)

/-- `Article.unpublish`, from the source: `canUnpublish` is
`isPublished && !isArchived`. -/
def articleUnpublish (ent : EntityInstance) (reason : Option String)
    (eventId eventCreatedAt : String) : Except VentydError EntityInstance :=
  mutation ent (fun ent =>
    match ent.getState with
    | .error e => .error e
    | .ok st =>
      if !(st.isPublished && !st.isArchived) then
        if st.isArchived then
          .error (.jsError "Cannot unpublish archived article")
        else
          .error (.jsError "Article is not published")
      else
        ent.dispatch "article:unpublished" (.unpublished reason)
          eventId eventCreatedAt)

/-- Modelled from the spec: `Repository.commit` (spec §4.4;
`createRepository.ts` is not among the available sources) — flush the
pending events and delegate to the adapter's `commitEvents`, here the prisma
adapter over a store whose snapshot row is the state itself. -/
def repositoryCommit (norm : String → String) (db : PrismaDb ArticleBody ArticleState)
    (ent : EntityInstance) : PrismaDb ArticleBody ArticleState × EntityInstance :=
  let (events, flushed) := ent.flush
  (commitEvents true norm (fun _ st => st) db events ent.entityId
    (ent.stateO.getD articleSeed), flushed)

/-- Modelled from the spec: `Repository.findOne` (spec §4.4) — fetch the
events through the adapter; `none` when there are none, otherwise the entity
reconstructed by `loadFromEvents`. -/
def repositoryFindOne (db : PrismaDb ArticleBody ArticleState) (entityId : String) :
    Option EntityInstance :=
  let events := getEventsByEntityId db "article" entityId
  if events.isEmpty then none else some (loadFromEvents entityId events)

/-! ## Concrete sample values used by witnesses and scenarios -/

/-- A sample article state. -/
def sampleState : ArticleState :=
  { title := "T"
    content := "C"
    author := "A"
    tags := []
    isPublished := false
    publishedAt := none
    isArchived := false
    archivedReason := none
    archivedAt := none }

/-- An event whose name is outside the reducer's switch. -/
def sampleBogusEvent : ArticleEvent :=
  { eventId := "e9"
    eventName := "article:bogus"
    entityId := "id1"
    entityName := "article"
    eventCreatedAt := "2024-01-01T00:00:00.000Z"
    body := .unarchived }

/-- A sample committed event for the adapter round trip. -/
def sampleEvent : PEvent ArticleBody :=
  { eventId := "e1"
    eventName := "article:created"
    entityId := "id1"
    entityName := "article"
    eventCreatedAt := "2024-01-01T00:00:00.000Z"
    body := .created "T" "C" "A" [] }

/-- A one-row prisma store holding `sampleEvent` for entity `id1`. -/
def sampleDb : PrismaDb ArticleBody ArticleState :=
  { events := [eventToRow (fun s => s) sampleEvent]
    snapshots := [] }

/-- A schema whose `validate` succeeds on every input, returning it. -/
def sampleOkSchema : StdSchema Nat Nat := fun n =>
  ValidateOutcome.result (StdResult.success n)

/-- A schema whose `validate` reports one issue on every input. -/
def sampleFailSchema : StdSchema Nat Nat := fun _ =>
  ValidateOutcome.result (StdResult.failure [{ path := [], message := "bad" }])

/-- A schema whose `validate` returns a `Promise` on every input. -/
def samplePromiseSchema : StdSchema Nat Nat := fun _ => ValidateOutcome.promise

/-- A two-entry event map: a failing schema before a succeeding one. -/
def sampleSchemas : List (String × StdSchema Nat Nat) :=
  [("a", sampleFailSchema), ("b", sampleOkSchema)]

/-- An event map whose only schema returns a `Promise`. -/
def promiseOnlySchemas : List (String × StdSchema Nat Nat) :=
  [("p", samplePromiseSchema)]

/-- A TypeBox validator rejecting every non-zero input with two errors, one
of them at the root pointer. -/
def sampleTypeboxValidator : Validator Nat :=
  { Check := fun n => n == 0
    Errors := fun _ =>
      [{ instancePath := "/user/name", message := "Expected string" },
       { instancePath := "", message := "bad value" }] }

/-- A deterministic timestamp for the created event of the scenario. -/
def ts1 : String := "2024-01-01T00:00:00.000Z"

/-- A deterministic timestamp for the second event of the scenario. -/
def ts2 : String := "2024-01-02T00:00:00.000Z"

/-- The initial event of the C3 scenario. -/
def c3CreatedEvent : ArticleEvent :=
  { eventId := "e1"
    eventName := "article:created"
    entityId := "id1"
    entityName := "article"
    eventCreatedAt := ts1
    body := .created "T" "C" "A" [] }

/-- The title-update event of the C3 scenario. -/
def c3TitleEvent : ArticleEvent :=
  { eventId := "e2"
    eventName := "article:title_updated"
    entityId := "id1"
    entityName := "article"
    eventCreatedAt := ts2
    body := .title_updated "T2" }

/-- The state the C3 scenario must reach: the updated title over the initial
body, with the lifecycle flags still at their initial values. -/
def c3FinalState : ArticleState :=
  { title := "T2"
    content := "C"
    author := "A"
    tags := []
    isPublished := false
    publishedAt := none
    isArchived := false
    archivedReason := none
    archivedAt := none }

/-- An empty prisma store. -/
def emptyDb : PrismaDb ArticleBody ArticleState :=
  { events := [], snapshots := [] }

/-- The end-to-end pipeline of C3: create the article with the initial body,
dispatch `title_updated` through the business method, commit into an empty
store, read back with `findOne`, and report the reconstructed state together
with the persisted event names in table order. -/
def c3Scenario : Option (ArticleState × List String) :=
  match articleCreate "id1" "e1" ts1 "T" "C" "A" [] with
  | .error _ => none
  | .ok ent =>
    match articleUpdateTitle ent "T2" "e2" ts2 with
    | .error _ => none
    | .ok ent2 =>
      let (db, _flushed) := repositoryCommit (fun s => s) emptyDb ent2
      match repositoryFindOne db "id1" with
      | none => none
      | some loaded =>
        match loaded.stateO with
        | none => none
        | some st => some (st, db.events.map (fun row => row.eventName))

/-- An archived article state. -/
def sampleArchivedState : ArticleState :=
  { title := "T"
    content := "C"
    author := "A"
    tags := []
    isPublished := false
    publishedAt := none
    isArchived := true
    archivedReason := some "old"
    archivedAt := some ts1 }

/-- A mutable entity instance holding the archived state. -/
def sampleArchivedEntity : EntityInstance :=
  { entityId := "id1"
    stateO := some sampleArchivedState
    queuedEvents := []
    readonlyFlag := false }

end Ventyd

/-! ## Helper lemmas -/

namespace Ventyd

/-- A filter over a list none of whose members satisfies the predicate is
empty. -/
theorem filter_of_none_false {α : Type} (p : α → Bool) :
    ∀ (l : List α), (∀ a ∈ l, p a = false) → l.filter p = []
  | [], _ => rfl
  | a :: l, h => by
    have ha := h a (List.mem_cons_self a l)
    simp [List.filter, ha,
      filter_of_none_false p l (fun b hb => h b (List.mem_cons_of_mem a hb))]

/-- When every schema in the list fails (by validation issues or by a
rejected `Promise`), the `parseEvent` loop falls through to the generic
error. -/
theorem parseEventAux_all_fail {ρ α : Type} (input : ρ) :
    ∀ (schemas : List (StdSchema ρ α)),
      (∀ s ∈ schemas, ∃ msg, standardValidate s input none = .error msg) →
      parseEventAux input schemas = .error "Validation failed"
  | [], _ => rfl
  | s :: rest, h => by
    obtain ⟨msg, hm⟩ := h s (List.mem_cons_self s rest)
    have ih := parseEventAux_all_fail input rest
      (fun x hx => h x (List.mem_cons_of_mem s hx))
    simp [parseEventAux, hm, ih]

/-- The `parseEvent` loop returns the value of the first succeeding schema:
every schema before it fails, and its own validation succeeds. -/
theorem parseEventAux_first_success {ρ α : Type} (input : ρ) :
    ∀ (pre : List (StdSchema ρ α)) (s : StdSchema ρ α)
      (post : List (StdSchema ρ α)) (v : α),
      (∀ x ∈ pre, ∃ msg, standardValidate x input none = .error msg) →
      standardValidate s input none = .ok v →
      parseEventAux input (pre ++ s :: post) = .ok v
  | [], s, post, v, _, hs => by simp [parseEventAux, hs]
  | x :: pre, s, post, v, hpre, hs => by
    obtain ⟨msg, hm⟩ := hpre x (List.mem_cons_self x pre)
    have ih := parseEventAux_first_success input pre s post v
      (fun y hy => hpre y (List.mem_cons_of_mem x hy)) hs
    simp [parseEventAux, hm, ih]

/-! ## Claim theorems -/

/-- Claim C1: the prisma adapter's `commitEvents` hands exactly the event
`createMany` and the snapshot `upsert` — in that order — to one single
`prisma.$transaction` call, and the transaction is all-or-nothing: on
success both writes take effect on the store, on failure the store is
unchanged. -/
theorem commitEvents_single_transaction_atomic {β σ σty : Type}
    (norm : String → String) (entityToRow : String → σty → σ)
    (events : List (PEvent β)) (entityId : String) (state : σty) :
    commitEventsTx norm entityToRow events entityId state =
      [PrismaCmd.createMany (events.map (eventToRow norm)),
       PrismaCmd.upsertSnapshot entityId (entityToRow entityId state)]
    ∧ ∀ (db : PrismaDb β σ),
        commitEvents true norm entityToRow db events entityId state =
          { events := db.events ++ events.map (eventToRow norm)
            snapshots := upsertList entityId (entityToRow entityId state) db.snapshots }
        ∧ commitEvents false norm entityToRow db events entityId state = db := by
  refine ⟨rfl, fun db => ⟨?_, rfl⟩⟩
  simp [commitEvents, runTransaction, commitEventsTx, applyCmd]

/-- Claim C2: reducing an event whose name is not among the names handled by
the article reducer's switch returns the previous state unchanged — the
switch's `default` arm, never an error. -/
theorem articleReducer_unknown_event_noop (s : ArticleState) (e : ArticleEvent)
    (h : e.eventName ∉ articleHandledEventNames) : articleReducer s e = s := by
  unfold articleReducer
  split <;> simp_all [articleHandledEventNames]

/-- Witness for C2 at an event named `article:bogus`. -/
theorem articleReducer_unknown_event_noop_witness :
    sampleBogusEvent.eventName ∉ articleHandledEventNames
    ∧ articleReducer sampleState sampleBogusEvent = sampleState :=
  ⟨by decide,
   articleReducer_unknown_event_noop sampleState sampleBogusEvent (by decide)⟩

/-- Claim C4: the prisma adapter's `getEventsByEntityId` returns exactly the
rows of the event table whose `entityName`/`entityId` match, in table order
(a sublist of the insertion-ordered table, i.e. creation order), mapped back
through `rowToEvent`; when no row matches, it returns the empty list. -/
theorem getEventsByEntityId_ordered_filter {β σ : Type} (db : PrismaDb β σ)
    (entityName entityId : String) :
    getEventsByEntityId db entityName entityId =
      (db.events.filter
        (fun row => row.entityName == entityName && row.entityId == entityId)).map
        rowToEvent
    ∧ (findMany db entityName entityId).Sublist db.events
    ∧ ((∀ row ∈ db.events, ¬(row.entityName = entityName ∧ row.entityId = entityId)) →
        getEventsByEntityId db entityName entityId = []) := by
  refine ⟨rfl, List.filter_sublist _, fun h => ?_⟩
  have hnil : db.events.filter
      (fun row => row.entityName == entityName && row.entityId == entityId) = [] := by
    refine filter_of_none_false _ _ (fun a ha => ?_)
    have := h a ha
    simp only [Bool.and_eq_true, beq_iff_eq, not_and] at *
    by_cases h1 : a.entityName = entityName
    · simp [h1, this h1]
    · simp [h1]
  simp [getEventsByEntityId, findMany, hnil]

/-- Witness for C4: an entity id with no stored events yields the empty
list. -/
theorem getEventsByEntityId_ordered_filter_witness :
    getEventsByEntityId sampleDb "article" "missing" = [] :=
  (getEventsByEntityId_ordered_filter sampleDb "article" "missing").2.2 (by decide)

/-- Claim C9: converting an event to a prisma row and back is the identity
whenever `eventCreatedAt` is canonical for the date normalisation (i.e.
`new Date(s).toISOString() = s`); every envelope field and the body are
preserved. -/
theorem eventToRow_rowToEvent_roundtrip {β : Type} (norm : String → String)
    (e : PEvent β) (h : norm e.eventCreatedAt = e.eventCreatedAt) :
    rowToEvent (eventToRow norm e) = e := by
  cases e
  simp_all [rowToEvent, eventToRow, newDate, JSDate.toISOString]

/-- Witness for C9 at a concrete event under the identity normalisation. -/
theorem eventToRow_rowToEvent_roundtrip_witness :
    rowToEvent (eventToRow (fun s => s) sampleEvent) = sampleEvent :=
  eventToRow_rowToEvent_roundtrip (fun s => s) sampleEvent rfl

/-- Claim C5: `parseEventByName` on a name absent from the schema's event
map fails with the error listing all registered event names (the map's keys,
joined); on a registered name it validates the input through that event's
validator (`standardValidate` with the name for the error header) and
returns its typed result. -/
theorem parseEventByName_unknown_lists_names {ρ α : Type}
    (eventSchemas : List (String × StdSchema ρ α)) (eventName : String) (input : ρ) :
    (eventSchemas.lookup eventName = none →
      parseEventByName eventSchemas eventName input =
        Except.error ("Event name \"" ++ eventName ++ "\" not found. Available events: "
          ++ String.intercalate ", " (eventSchemas.map Prod.fst)))
    ∧ (∀ schema, eventSchemas.lookup eventName = some schema →
        parseEventByName eventSchemas eventName input =
          standardValidate schema input (some eventName)) := by
  constructor
  · intro h; simp [parseEventByName, h]
  · intro schema h; simp [parseEventByName, h]

/-- Witness for C5: an unregistered name yields the error listing the two
registered names, and a registered name validates and returns the input. -/
theorem parseEventByName_unknown_lists_names_witness :
    parseEventByName sampleSchemas "bogus" (7 : Nat) =
      Except.error "Event name \"bogus\" not found. Available events: a, b"
    ∧ parseEventByName sampleSchemas "b" (7 : Nat) = Except.ok 7 :=
  ⟨(parseEventByName_unknown_lists_names sampleSchemas "bogus" 7).1 rfl,
   (parseEventByName_unknown_lists_names sampleSchemas "b" 7).2 sampleOkSchema rfl⟩

/-- Claim C6: `parseEvent` tries the event validators in map order and
returns the result of the first one that succeeds; when every validator
fails it fails with the generic `Validation failed` error, tied to no event
name. -/
theorem parseEvent_first_success_else_generic {ρ α : Type}
    (eventSchemas : List (String × StdSchema ρ α)) (input : ρ) :
    ((∀ s ∈ eventSchemas.map Prod.snd, ∃ msg, standardValidate s input none = .error msg) →
      parseEvent eventSchemas input = Except.error "Validation failed")
    ∧ (∀ (pre : List (StdSchema ρ α)) (s : StdSchema ρ α)
        (post : List (StdSchema ρ α)) (v : α),
        eventSchemas.map Prod.snd = pre ++ s :: post →
        (∀ x ∈ pre, ∃ msg, standardValidate x input none = .error msg) →
        standardValidate s input none = .ok v →
        parseEvent eventSchemas input = Except.ok v) := by
  constructor
  · intro h
    exact parseEventAux_all_fail input _ h
  · intro pre s post v heq hpre hs
    unfold parseEvent
    rw [heq]
    exact parseEventAux_first_success input pre s post v hpre hs

/-- Witness for C6: with a failing schema before a succeeding one, the first
success is returned. -/
theorem parseEvent_first_success_else_generic_witness :
    parseEvent sampleSchemas (7 : Nat) = Except.ok 7 :=
  (parseEvent_first_success_else_generic sampleSchemas 7).2
    [sampleFailSchema] sampleOkSchema [] 7 rfl
    (by
      intro x hx
      simp only [List.mem_singleton] at hx
      subst hx
      exact ⟨_, rfl⟩)
    rfl

/-- Claim C7: when a value fails a TypeBox-bridged validator, the
Standard-Schema result is a `{issues}` list with exactly one issue per
reported error, each carrying the path decoded from that error's
`instancePath` and the error's message; the empty `instancePath` decodes to
the empty path. -/
theorem validate_issue_per_error {ρ : Type} (validator : Validator ρ) (value : ρ)
    (h : validator.Check value = false) :
    typeboxValidate validator value =
      ValidateOutcome.result (StdResult.failure ((validator.Errors value).map
        (fun error => { path := PathSegments error.instancePath
                        message := error.message })))
    ∧ PathSegments "" = [] := by
  constructor
  · simp [typeboxValidate, h, Issue]
  · rfl

/-- Witness for C7: a failing value yields two issues, with
`/user/name` decoded to `["user", "name"]` and the empty pointer to the
empty path. -/
theorem validate_issue_per_error_witness :
    typeboxValidate sampleTypeboxValidator 1 =
      ValidateOutcome.result (StdResult.failure
        [{ path := ["user", "name"], message := "Expected string" },
         { path := [], message := "bad value" }]) :=
  (validate_issue_per_error sampleTypeboxValidator 1 rfl).1

/-- Counterexample to claim C10 as stated: with an event map whose only
validator returns a `Promise`, `parseEvent` does not fail with
`Promise validation result is not supported` — the per-validator error is
caught by the loop's `try/catch` and the generic `Validation failed` is
thrown instead. -/
theorem parseEvent_promise_generic_error_counterexample :
    parseEvent promiseOnlySchemas (0 : Nat) = Except.error "Validation failed"
    ∧ parseEvent promiseOnlySchemas (0 : Nat) ≠
        Except.error "Promise validation result is not supported" := by
  refine ⟨rfl, fun hcontra => ?_⟩
  have h2 : (Except.error "Validation failed" : Except String Nat) =
      Except.error "Promise validation result is not supported" := hcontra
  injection h2 with h3
  exact absurd h3 (by decide)

/-- Claim C10 (amended): every validation result is delivered synchronously,
and a `Promise`-returning validator is never awaited: `parseEventByName` and
`parseState` fail with `Promise validation result is not supported`, while
`parseEvent` catches that error per validator and — when every validator
returns a `Promise` — fails with the generic `Validation failed`. -/
theorem promise_validation_rejected_synchronously {ρ α : Type}
    (eventSchemas : List (String × StdSchema ρ α)) (stateSchema : StdSchema ρ α)
    (eventName : String) (input : ρ) :
    (∀ schema, eventSchemas.lookup eventName = some schema →
      schema input = ValidateOutcome.promise →
      parseEventByName eventSchemas eventName input =
        Except.error "Promise validation result is not supported")
    ∧ (stateSchema input = ValidateOutcome.promise →
        parseState stateSchema input =
          Except.error "Promise validation result is not supported")
    ∧ ((∀ s ∈ eventSchemas.map Prod.snd, s input = ValidateOutcome.promise) →
        parseEvent eventSchemas input = Except.error "Validation failed") := by
  refine ⟨fun schema hl hp => ?_, fun hp => ?_, fun h => ?_⟩
  · simp [parseEventByName, hl, standardValidate, hp]
  · simp [parseState, standardValidate, hp]
  · refine parseEventAux_all_fail input _ (fun s hs => ?_)
    refine ⟨"Promise validation result is not supported", ?_⟩
    simp [standardValidate, h s hs]

/-- Witness for C10 (amended) at the `Promise`-only event map. -/
theorem promise_validation_rejected_synchronously_witness :
    parseEventByName promiseOnlySchemas "p" (0 : Nat) =
      Except.error "Promise validation result is not supported"
    ∧ parseState samplePromiseSchema (0 : Nat) =
        Except.error "Promise validation result is not supported"
    ∧ parseEvent promiseOnlySchemas (0 : Nat) = Except.error "Validation failed" :=
  ⟨(promise_validation_rejected_synchronously promiseOnlySchemas
      samplePromiseSchema "p" 0).1 samplePromiseSchema rfl rfl,
   (promise_validation_rejected_synchronously promiseOnlySchemas
      samplePromiseSchema "p" 0).2.1 rfl,
   (promise_validation_rejected_synchronously promiseOnlySchemas
      samplePromiseSchema "p" 0).2.2
     (by
       intro s hs
       simp only [promiseOnlySchemas, List.map_cons, List.map_nil,
         List.mem_singleton] at hs
       subst hs
       rfl)⟩

/-- Claim C3: creating the article with initial body
`{title T, content C, author A, tags []}`, dispatching `title_updated` with
`{title T2}`, committing, and reading back through `findOne` yields the
state `{title T2, content C, author A, tags []}` (lifecycle flags at their
initial values) with exactly the two persisted events named
`article:created` and `article:title_updated`; equivalently, folding the
article reducer over that two-event sequence from the empty seed produces
the same state. -/
theorem article_end_to_end_scenario :
    c3Scenario = some (c3FinalState, ["article:created", "article:title_updated"])
    ∧ (loadFromEvents "id1" [c3CreatedEvent, c3TitleEvent]).stateO = some c3FinalState := by
  constructor <;> rfl

/-- Claim C8: on a mutable article whose state is archived, each mutating
business method (`updateTitle`, `updateContent`, `updateTags`, `publish`,
`unpublish`) fails with its specific business-rule error — raised by the
guard clause before any event is dispatched, so the returned value carries
no updated entity and the caller's state and pending queue are untouched —
and that error is distinct from `ReadonlyEntityError`. -/
theorem archived_mutations_business_error (ent : EntityInstance) (st : ArticleState)
    (title content : String) (tags : List String) (reason : Option String)
    (eid ts nowIso : String)
    (hmut : ent.readonlyFlag = false) (hst : ent.stateO = some st)
    (harch : st.isArchived = true) :
    articleUpdateTitle ent title eid ts =
      Except.error (.jsError "Cannot update title of archived article")
    ∧ articleUpdateContent ent content eid ts =
        Except.error (.jsError "Cannot update content of archived article")
    ∧ articleUpdateTags ent tags eid ts =
        Except.error (.jsError "Cannot update tags of archived article")
    ∧ articlePublish ent eid ts nowIso =
        Except.error (.jsError "Cannot publish archived article")
    ∧ articleUnpublish ent reason eid ts =
        Except.error (.jsError "Cannot unpublish archived article")
    ∧ (∀ msg, VentydError.jsError msg ≠ VentydError.readonlyEntity) := by
  refine ⟨?_, ?_, ?_, ?_, ?_, fun msg h => by cases h⟩ <;>
    simp [articleUpdateTitle, articleUpdateContent, articleUpdateTags,
      articlePublish, articleUnpublish, mutation, hmut,
      EntityInstance.getState, hst, harch]

/-- Witness for C8 at a concrete mutable archived article. -/
theorem archived_mutations_business_error_witness :
    articleUpdateTitle sampleArchivedEntity "X" "e5" ts2 =
      Except.error (.jsError "Cannot update title of archived article")
    ∧ articlePublish sampleArchivedEntity "e6" ts2 ts2 =
        Except.error (.jsError "Cannot publish archived article") :=
  ⟨(archived_mutations_business_error sampleArchivedEntity sampleArchivedState
      "X" "c" [] none "e5" ts2 ts2 rfl rfl rfl).1,
   (archived_mutations_business_error sampleArchivedEntity sampleArchivedState
      "X" "c" [] none "e6" ts2 ts2 rfl rfl rfl).2.2.2.1⟩

end Ventyd
